import Mathlib

/-!
Verification of the tutor-chat session core (src/app.py).

Shallow embedding: the Streamlit session state becomes an explicit
`SessionState` record; the in-place mutations of `update_settings`,
`clear_chat`, the suggestion-click handler and the chat-input branch of
`main` become functions from state to state.  Python floats (temperature,
the 1e-9 epsilon) are embedded as exact rationals; the OpenAI client plus
`client.chat.completions.create` become an abstract service of type
`ChatRequest → Except String String` (`Except.error` is a raised
exception, carrying the text that `st.error` would render).
-/

/-- A chat message, as the dicts `{"role": ..., "content": ...}` stored in
`st.session_state.messages`. -/
structure Message where
  role : String
  content : String
deriving DecidableEq, Repr

/-- The session state fields that src/app.py keeps in `st.session_state`
(see `init_session_state`, lines 45-61). -/
structure SessionState where
  messages : List Message
  model : String
  temperature : ℚ
  level : String
  focus : String
  style : String
  socratic : Bool
  system_prompt_cache : String
deriving DecidableEq, Repr

/-- `DEFAULT_MODEL = "gpt-4"` (line 11). -/
def DEFAULT_MODEL : String := "gpt-4"

/-- `DEFAULT_TEMPERATURE = 0.3` (line 13), as an exact rational. -/
def DEFAULT_TEMPERATURE : ℚ := 3 / 10

/-- `init_session_state` (lines 45-61): the defaults a fresh session holds. -/
def init_session_state : SessionState :=
  { messages := []
    model := DEFAULT_MODEL
    temperature := DEFAULT_TEMPERATURE
    level := "Beginner"
    focus := "Fundamentals"
    style := "Explain, then example, then short exercise"
    socratic := true
    system_prompt_cache := "" }

/-- The tolerance `1e-9` used by `update_settings` (line 69), as an exact
rational. -/
def tempEpsilon : ℚ := 1 / 1000000000

/-- `update_settings` (lines 64-84).  Each field is compared against the
stored value and overwritten when it differs; `changed` is the disjunction
of the six per-field tests.  The temperature test is
`abs(temperature - stored) > 1e-9`.  Each test reads only its own field,
so the sequential Python assignments are embedded as one record update. -/
def update_settings (s : SessionState) (model : String) (temperature : ℚ)
    (level : String) (focus : String) (style : String) (socratic : Bool) :
    SessionState × Bool :=
  let modelChanged : Bool := model ≠ s.model
  let temperatureChanged : Bool := |temperature - s.temperature| > tempEpsilon
  let levelChanged : Bool := level ≠ s.level
  let focusChanged : Bool := focus ≠ s.focus
  let styleChanged : Bool := style ≠ s.style
  let socraticChanged : Bool := socratic ≠ s.socratic
  ({ s with
      model := if modelChanged then model else s.model
      temperature := if temperatureChanged then temperature else s.temperature
      level := if levelChanged then level else s.level
      focus := if focusChanged then focus else s.focus
      style := if styleChanged then style else s.style
      socratic := if socraticChanged then socratic else s.socratic },
   modelChanged || temperatureChanged || levelChanged || focusChanged ||
     styleChanged || socraticChanged)

/-- `clear_chat` (lines 87-88). -/
def clear_chat (s : SessionState) : SessionState :=
  { s with messages := [] }

/-- The fixed part of the system prompt before the tone clause
(`build_system_prompt`, lines 26-30 up to `"- Tone: "`). -/
def promptHeader (level : String) (focus : String) (style : String) : String :=
  "You are a patient, expert Python tutor.\n" ++
  "- Teaching level: " ++ level ++ "\n" ++
  "- Focus area: " ++ focus ++ "\n" ++
  "- Teaching style: " ++ style ++ "\n" ++
  "- Tone: "

/-- The fixed part of the system prompt after the tone clause
(`build_system_prompt`, lines 30-41: goals and formatting directives). -/
def promptTail : String :=
  "\n\n" ++
  "Goals:\n" ++
  "1) Explain concepts step-by-step using simple language.\n" ++
  "2) Provide concise code examples using modern Python 3.12 when helpful.\n" ++
  "3) Encourage good practices (readability, PEP 8, clear naming, basic testing).\n" ++
  "4) Offer small exercises. Before revealing solutions, invite the learner to try first.\n" ++
  "5) When asked to review code, explain what it does, identify issues, and suggest improvements.\n" ++
  "6) Prefer standard library unless user requests external packages.\n\n" ++
  "Formatting:\n" ++
  "- Keep responses concise. Use bullet points and short code blocks where useful.\n" ++
  "- Provide example outputs when helpful.\n" ++
  "- Ask one clarifying or reflective question when appropriate to check understanding."

/-- `build_system_prompt` (lines 23-42): the f-string concatenation, with
the tone picked by `socratic` (line 24). -/
def build_system_prompt (level : String) (focus : String) (style : String)
    (socratic : Bool) : String :=
  let tone :=
    if socratic then "Socratic and probing while supportive"
    else "clear and direct with gentle guidance"
  promptHeader level focus style ++ tone ++ promptTail

/-- `ensure_system_prompt` (lines 91-99): recompute the prompt from the
current settings, store it in the cache, return it. -/
def ensure_system_prompt (s : SessionState) : SessionState × String :=
  let prompt := build_system_prompt s.level s.focus s.style s.socratic
  ({ s with system_prompt_cache := prompt }, prompt)

/-- The request `client.chat.completions.create` receives (lines 105-109). -/
structure ChatRequest where
  model : String
  messages : List Message
  temperature : ℚ
deriving DecidableEq, Repr

/-- `generate_assistant_reply` (lines 102-110): prepend the system prompt
to the history and invoke the completion service. -/
def generate_assistant_reply (service : ChatRequest → Except String String)
    (model : String) (system_prompt : String) (chat_history : List Message)
    (temperature : ℚ) : Except String String :=
  service
    { model := model
      messages := { role := "system", content := system_prompt } :: chat_history
      temperature := temperature }

/-- The six base starter prompts of `suggested_prompts` (lines 114-121). -/
def basePrompts : List String :=
  [ "Explain list comprehensions with two small examples.",
    "Give me a short exercise on for-loops and range().",
    "What are common pitfalls with mutable default arguments?",
    "Show how to read and write a text file safely.",
    "Explain try/except/else/finally with a minimal example.",
    "How do I use virtual environments and why do they matter?" ]

/-- The two prompts appended for level `"Beginner"` (lines 123-126). -/
def beginnerExtras : List String :=
  [ "What is the difference between a list and a tuple?",
    "Explain variables and types with simple examples." ]

/-- The two prompts appended for level `"Intermediate"` (lines 128-131). -/
def intermediateExtras : List String :=
  [ "Demonstrate list vs dict iteration patterns and when to use each.",
    "Show how to write a small unit test using unittest." ]

/-- The two prompts appended in the `else` branch (lines 133-136),
i.e. for `"Advanced"` and any other string. -/
def advancedExtras : List String :=
  [ "Explain decorators with a practical example.",
    "Show how to use type hints and mypy to improve code quality." ]

/-- `suggested_prompts` (lines 113-137): extend the base list with the
level-specific pair, then truncate to the first six (`base[:6]`). -/
def suggested_prompts (level : String) : List String :=
  (if level = "Beginner" then basePrompts ++ beginnerExtras
   else if level = "Intermediate" then basePrompts ++ intermediateExtras
   else basePrompts ++ advancedExtras).take 6

/-- The fallback text assigned to `reply` when the service raises
(line 217). -/
def fallbackReply : String :=
  "I'm having trouble reaching the language model API. Please check your API key and try again."

/-- The suggestion-chip handler (lines 186-189): clicking chip `i` appends
a user message holding that prompt. -/
def suggestion_click (s : SessionState) (i : Nat) : SessionState :=
  match (suggested_prompts s.level).get? i with
  | some p => { s with messages := s.messages ++ [{ role := "user", content := p }] }
  | none => s

/-- The chat-input branch of `main` (lines 197-220).  `if user_input:` is
Python truthiness of a string: the empty string is skipped.  Otherwise the
user message is appended, the system prompt recomputed, the service
invoked on the composed request; on success its reply, on exception the
fallback text, is appended as the assistant message.  The second component
is the diagnostic `st.error` shows on the exception path (line 216). -/
def submit (s : SessionState) (user_input : String)
    (service : ChatRequest → Except String String) : SessionState × Option String :=
  if user_input ≠ "" then
    let s1 := { s with
      messages := s.messages ++ [{ role := "user", content := user_input }] }
    let ep := ensure_system_prompt s1
    match generate_assistant_reply service ep.1.model ep.2 ep.1.messages ep.1.temperature with
    | Except.ok reply =>
        ({ ep.1 with
            messages := ep.1.messages ++ [{ role := "assistant", content := reply }] },
         none)
    | Except.error e =>
        ({ ep.1 with
            messages := ep.1.messages ++ [{ role := "assistant", content := fallbackReply }] },
         some ("API error: " ++ e))
  else (s, none)

/-- The request `submit` hands to the service: system entry first, then the
post-append conversation, with model and temperature from the current
settings (derived from lines 104 and 208-213). -/
def submitRequest (s : SessionState) (user_input : String) : ChatRequest :=
  { model := s.model
    messages :=
      { role := "system",
        content := build_system_prompt s.level s.focus s.style s.socratic } ::
      (s.messages ++ [{ role := "user", content := user_input }])
    temperature := s.temperature }

/-- One UI event consumed by the session core: a settings mutation, a
clear, a suggestion-chip click, or a chat submission (with the service in
effect for that turn). -/
inductive Op where
  | updateSettingsOp (model : String) (temperature : ℚ) (level : String)
      (focus : String) (style : String) (socratic : Bool)
  | clearChatOp
  | suggestionClickOp (i : Nat)
  | submitOp (user_input : String) (service : ChatRequest → Except String String)

/-- Apply one event to the session state. -/
def applyOp (s : SessionState) : Op → SessionState
  | Op.updateSettingsOp model temperature level focus style socratic =>
      (update_settings s model temperature level focus style socratic).1
  | Op.clearChatOp => clear_chat s
  | Op.suggestionClickOp i => suggestion_click s i
  | Op.submitOp user_input service => (submit s user_input service).1

/-- Run a sequence of events from a starting state. -/
def runOps (s : SessionState) (ops : List Op) : SessionState :=
  ops.foldl applyOp s

/-- The content the orchestrator appends as the assistant message: the
service reply on success, the fixed fallback text when the service raises
(lines 208-220). -/
def replyOf (service : ChatRequest → Except String String)
    (req : ChatRequest) : String :=
  match service req with
  | Except.ok r => r
  | Except.error _ => fallbackReply

/-- The diagnostic `st.error` renders: present exactly on the exception
path, holding the formatted error text of line 216. -/
def diagOf (service : ChatRequest → Except String String)
    (req : ChatRequest) : Option String :=
  match service req with
  | Except.ok _ => none
  | Except.error e => some ("API error: " ++ e)

/-- Whether the service a submission uses only ever succeeds with non-empty
reply text (the hypothesis under which every stored message has non-empty
content; nothing in src/app.py enforces it). -/
def serviceRepliesNonempty : Op → Prop
  | Op.submitOp _ service => ∀ q r, service q = Except.ok r → r ≠ ""
  | _ => True

/-- Submitting the empty string is a no-op: `if user_input:` fails on the
empty string, so nothing is appended and no diagnostic is produced. -/
theorem submit_empty (s : SessionState) (service : ChatRequest → Except String String) :
    submit s "" service = (s, none) := by
  simp [submit]

/-- Full characterisation of a non-empty submission: the user message and
the assistant message (service reply or fallback) are appended in order,
the system-prompt cache is recomputed from the current settings, and the
diagnostic reflects the service outcome on the composed request. -/
theorem submit_spec (s : SessionState) (txt : String)
    (service : ChatRequest → Except String String) (h : txt ≠ "") :
    submit s txt service =
      ({ s with
          messages := s.messages ++
            [{ role := "user", content := txt },
             { role := "assistant", content := replyOf service (submitRequest s txt) }]
          system_prompt_cache := build_system_prompt s.level s.focus s.style s.socratic },
       diagOf service (submitRequest s txt)) := by
  rcases hq : service (submitRequest s txt) with e | r <;>
    simp_all [submit, ensure_system_prompt, generate_assistant_reply, submitRequest,
      replyOf, diagOf]

/-- The message log after a non-empty submission: the old log followed by
the user message and the assistant message, in that order. -/
theorem submit_messages (s : SessionState) (txt : String)
    (service : ChatRequest → Except String String) (h : txt ≠ "") :
    (submit s txt service).1.messages =
      s.messages ++
        [{ role := "user", content := txt },
         { role := "assistant", content := replyOf service (submitRequest s txt) }] := by
  have hs := congrArg (fun p => p.1.messages) (submit_spec s txt service h)
  simpa using hs

/-- Every level, the three named ones included, yields the plain base list:
the two appended prompts are always cut off by `base[:6]`. -/
theorem suggested_prompts_eq_base (level : String) :
    suggested_prompts level = basePrompts := by
  unfold suggested_prompts
  split
  · rfl
  · split <;> rfl

/-- A suggestion click leaves the log unchanged (no prompt at that index)
or appends one user message whose content is one of the base prompts. -/
theorem suggestion_click_messages (s : SessionState) (i : Nat) :
    (suggestion_click s i).messages = s.messages ∨
    ∃ p, p ∈ basePrompts ∧
      (suggestion_click s i).messages =
        s.messages ++ [{ role := "user", content := p }] := by
  unfold suggestion_click
  rcases hg : (suggested_prompts s.level).get? i with _ | p
  · exact Or.inl rfl
  · refine Or.inr ⟨p, ?_, rfl⟩
    have := List.get?_mem hg
    rwa [suggested_prompts_eq_base] at this

/-- Induction principle over event sequences: a state predicate preserved
by every event (satisfying a per-event side condition) holds after any run. -/
theorem runOps_inv (P : SessionState → Prop) (Q : Op → Prop)
    (step : ∀ s o, Q o → P s → P (applyOp s o)) :
    ∀ ops s, (∀ o ∈ ops, Q o) → P s → P (runOps s ops) := by
  intro ops
  induction ops with
  | nil => exact fun s _ h => h
  | cons o rest ih =>
      intro s hq h
      have h1 : P (applyOp s o) := step s o (hq o (List.mem_cons_self o rest)) h
      exact ih (applyOp s o) (fun x hx => hq x (List.mem_cons_of_mem o hx)) h1

/-- No single event stores a message with role "system": every append uses
role "user" or "assistant". -/
theorem applyOp_no_system (s : SessionState) (o : Op)
    (h : ∀ m ∈ s.messages, m.role ≠ "system") :
    ∀ m ∈ (applyOp s o).messages, m.role ≠ "system" := by
  cases o with
  | updateSettingsOp model temperature level focus style socratic =>
      simpa [applyOp, update_settings] using h
  | clearChatOp => simp [applyOp, clear_chat]
  | suggestionClickOp i =>
      simp only [applyOp]
      rcases suggestion_click_messages s i with hm | ⟨p, _, hm⟩ <;> rw [hm]
      · exact h
      · intro m hmem
        rcases List.mem_append.mp hmem with hmem | hmem
        · exact h m hmem
        · simp at hmem
          subst hmem
          simp
  | submitOp txt service =>
      by_cases ht : txt = ""
      · subst ht
        simp only [applyOp, submit_empty]
        exact h
      · simp only [applyOp]
        rw [submit_messages s txt service ht]
        intro m hmem
        simp only [List.mem_append, List.mem_cons, List.not_mem_nil, or_false] at hmem
        rcases hmem with hmem | hmem | hmem
        · exact h m hmem
        · subst hmem
          simp
        · subst hmem
          simp

/-- From the empty initial log, no reachable state stores a system-role
message. -/
theorem no_system_in_store (ops : List Op) :
    ∀ m ∈ (runOps init_session_state ops).messages, m.role ≠ "system" := by
  refine runOps_inv (fun s => ∀ m ∈ s.messages, m.role ≠ "system") (fun _ => True)
    (fun s o _ h => applyOp_no_system s o h) ops init_session_state
    (fun _ _ => trivial) ?_
  intro m hm
  simp [init_session_state] at hm

/-- All six base suggestion prompts are non-empty strings. -/
theorem basePrompts_nonempty : ∀ p ∈ basePrompts, p ≠ "" := by decide

/-- Step preservation of non-empty contents, given that the submission's
service only succeeds with non-empty replies. -/
theorem applyOp_nonempty (s : SessionState) (o : Op)
    (hq : serviceRepliesNonempty o)
    (h : ∀ m ∈ s.messages, m.content ≠ "") :
    ∀ m ∈ (applyOp s o).messages, m.content ≠ "" := by
  cases o with
  | updateSettingsOp model temperature level focus style socratic =>
      simpa [applyOp, update_settings] using h
  | clearChatOp => simp [applyOp, clear_chat]
  | suggestionClickOp i =>
      simp only [applyOp]
      rcases suggestion_click_messages s i with hm | ⟨p, hp, hm⟩ <;> rw [hm]
      · exact h
      · intro m hmem
        simp only [List.mem_append, List.mem_cons, List.not_mem_nil, or_false] at hmem
        rcases hmem with hmem | hmem
        · exact h m hmem
        · subst hmem
          exact basePrompts_nonempty p hp
  | submitOp txt service =>
      by_cases ht : txt = ""
      · subst ht
        simp only [applyOp, submit_empty]
        exact h
      · simp only [applyOp]
        rw [submit_messages s txt service ht]
        intro m hmem
        simp only [List.mem_append, List.mem_cons, List.not_mem_nil, or_false] at hmem
        rcases hmem with hmem | hmem | hmem
        · exact h m hmem
        · subst hmem
          simpa using ht
        · subst hmem
          show replyOf service (submitRequest s txt) ≠ ""
          rcases hsvc : service (submitRequest s txt) with e | r
          · simp [replyOf, hsvc, fallbackReply]
          · simpa [replyOf, hsvc] using hq (submitRequest s txt) r hsvc

/-- C1 (amended): `update_settings` returns true iff at least one of the
six fields differs, where temperature values differing by at most 1e-9 are
treated as equal; afterwards the store holds the candidate values of
model, level, focus, style and socratic, and the candidate temperature
exactly when it differs from the stored one by more than 1e-9 (otherwise
the stored temperature is retained). -/
theorem C1_update_settings_change_detection (s : SessionState) (model : String)
    (temperature : ℚ) (level focus style : String) (socratic : Bool) :
    ((update_settings s model temperature level focus style socratic).2 = true ↔
      (model ≠ s.model ∨ |temperature - s.temperature| > tempEpsilon ∨ level ≠ s.level ∨
       focus ≠ s.focus ∨ style ≠ s.style ∨ socratic ≠ s.socratic)) ∧
    (update_settings s model temperature level focus style socratic).1.model = model ∧
    (update_settings s model temperature level focus style socratic).1.temperature =
      (if |temperature - s.temperature| > tempEpsilon then temperature else s.temperature) ∧
    (update_settings s model temperature level focus style socratic).1.level = level ∧
    (update_settings s model temperature level focus style socratic).1.focus = focus ∧
    (update_settings s model temperature level focus style socratic).1.style = style ∧
    (update_settings s model temperature level focus style socratic).1.socratic = socratic := by
  refine ⟨?_, ?_, ?_, ?_, ?_, ?_, ?_⟩
  · simp [update_settings, Bool.or_eq_true, decide_eq_true_eq, or_assoc]
  · simp only [update_settings]
    by_cases h : model = s.model <;> simp [h]
  · simp only [update_settings]
    by_cases h : |temperature - s.temperature| > tempEpsilon <;> simp [h]
  · simp only [update_settings]
    by_cases h : level = s.level <;> simp [h]
  · simp only [update_settings]
    by_cases h : focus = s.focus <;> simp [h]
  · simp only [update_settings]
    by_cases h : style = s.style <;> simp [h]
  · simp only [update_settings]
    by_cases h : socratic = s.socratic <;> simp [h]

/-- C1 counterexample: a candidate whose temperature differs from the
stored 0.3 by exactly 1e-9 (all other fields unchanged).  The claim as
stated says the field differs (the difference is not less than epsilon),
so `update` must return true and the store must afterwards hold the
candidate temperature; the code returns false and keeps the old value. -/
theorem C1_update_settings_boundary_cex :
    (3/10 + 1/1000000000 : ℚ) ≠ init_session_state.temperature ∧
    (update_settings init_session_state "gpt-4" (3/10 + 1/1000000000)
      "Beginner" "Fundamentals" "Explain, then example, then short exercise" true).2 = false ∧
    (update_settings init_session_state "gpt-4" (3/10 + 1/1000000000)
      "Beginner" "Fundamentals" "Explain, then example, then short exercise" true).1.temperature
      ≠ 3/10 + 1/1000000000 := by
  refine ⟨by norm_num [init_session_state, DEFAULT_TEMPERATURE], ?_, ?_⟩
  · simp [update_settings, init_session_state, DEFAULT_MODEL, DEFAULT_TEMPERATURE,
      tempEpsilon, abs_le]
  · simp [update_settings, init_session_state, DEFAULT_MODEL, DEFAULT_TEMPERATURE,
      tempEpsilon, abs_le]

/-- C2 (amended): submitting the empty string is a no-op (store unchanged,
service outcome irrelevant, no diagnostic); whitespace-only but non-empty
input is not rejected — it is appended and answered like any other
submission, because the guard `if user_input:` only filters the empty
string. -/
theorem C2_submit_blank_guard :
    (∀ (s : SessionState) (service : ChatRequest → Except String String),
      submit s "" service = (s, none)) ∧
    (∀ (s : SessionState) (service : ChatRequest → Except String String),
      (submit s "   " service).1.messages =
        s.messages ++
          [{ role := "user", content := "   " },
           { role := "assistant", content := replyOf service (submitRequest s "   ") }]) :=
  ⟨fun s service => submit_empty s service,
   fun s service => submit_messages s "   " service (by decide)⟩

/-- C2 counterexample: submitting the whitespace-only string "   " changes
the conversation store, so it is not the no-op the claim states. -/
theorem C2_whitespace_submit_cex :
    (submit init_session_state "   "
      (fun _ => Except.ok "A list is a sequence.")).1.messages ≠
      init_session_state.messages := by
  rw [submit_messages _ _ _ (by decide)]
  simp [init_session_state]

/-- C3: for each of the three levels, `suggested_prompts` is exactly the
base-plus-extras list truncated to its first six entries, and has length
six. -/
theorem C3_suggested_prompts_six :
    (suggested_prompts "Beginner" = (basePrompts ++ beginnerExtras).take 6 ∧
      (suggested_prompts "Beginner").length = 6) ∧
    (suggested_prompts "Intermediate" = (basePrompts ++ intermediateExtras).take 6 ∧
      (suggested_prompts "Intermediate").length = 6) ∧
    (suggested_prompts "Advanced" = (basePrompts ++ advancedExtras).take 6 ∧
      (suggested_prompts "Advanced").length = 6) := by
  decide

/-- C4: when the service raises on the composed request, `submit` appends
the user message and then the fixed fallback assistant message, the user
message is present in the resulting store, and the error detail is
surfaced as the diagnostic; `submit` returns normally, so the exception
never escapes the orchestrator. -/
theorem C4_submit_service_failure (s : SessionState) (txt : String)
    (service : ChatRequest → Except String String) (e : String)
    (ht : txt ≠ "") (hsvc : service (submitRequest s txt) = Except.error e) :
    (submit s txt service).1.messages =
      s.messages ++
        [{ role := "user", content := txt },
         { role := "assistant", content := fallbackReply }] ∧
    { role := "user", content := txt } ∈ (submit s txt service).1.messages ∧
    (submit s txt service).2 = some ("API error: " ++ e) := by
  have hmsg := submit_messages s txt service ht
  have hrep : replyOf service (submitRequest s txt) = fallbackReply := by
    simp [replyOf, hsvc]
  rw [hrep] at hmsg
  refine ⟨hmsg, ?_, ?_⟩
  · rw [hmsg]
    simp
  · have hd := congrArg (fun p => p.2) (submit_spec s txt service ht)
    simpa [diagOf, hsvc] using hd

/-- C4 witness: the failure theorem applied to the initial state, the text
"What is a list?" and a service stub that always raises "boom". -/
theorem C4_submit_service_failure_inst :
    ("What is a list?" : String) ≠ "" ∧
    ((fun _ : ChatRequest => (Except.error "boom" : Except String String))
      (submitRequest init_session_state "What is a list?") = Except.error "boom") ∧
    ((submit init_session_state "What is a list?"
        (fun _ => (Except.error "boom" : Except String String))).1.messages =
      init_session_state.messages ++
        [{ role := "user", content := "What is a list?" },
         { role := "assistant", content := fallbackReply }] ∧
    { role := "user", content := "What is a list?" } ∈
      (submit init_session_state "What is a list?"
        (fun _ => (Except.error "boom" : Except String String))).1.messages ∧
    (submit init_session_state "What is a list?"
        (fun _ => (Except.error "boom" : Except String String))).2 =
      some ("API error: " ++ "boom")) :=
  ⟨by decide, rfl,
   C4_submit_service_failure init_session_state "What is a list?"
     (fun _ => (Except.error "boom" : Except String String)) "boom" (by decide) rfl⟩

/-- C5: when the service succeeds with reply r on the composed request, the
resulting store is the prior store followed by the user message and then an
assistant message holding exactly r, and no diagnostic is produced. -/
theorem C5_submit_service_success (s : SessionState) (txt : String)
    (service : ChatRequest → Except String String) (r : String)
    (ht : txt ≠ "") (hsvc : service (submitRequest s txt) = Except.ok r) :
    (submit s txt service).1.messages =
      s.messages ++
        [{ role := "user", content := txt },
         { role := "assistant", content := r }] ∧
    (submit s txt service).2 = none := by
  have hmsg := submit_messages s txt service ht
  have hrep : replyOf service (submitRequest s txt) = r := by
    simp [replyOf, hsvc]
  rw [hrep] at hmsg
  refine ⟨hmsg, ?_⟩
  have hd := congrArg (fun p => p.2) (submit_spec s txt service ht)
  simpa [diagOf, hsvc] using hd

/-- C5 witness: the success theorem applied to the initial state, the text
"What is a list?" and a service stub that replies "A list is...". -/
theorem C5_submit_service_success_inst :
    ("What is a list?" : String) ≠ "" ∧
    ((fun _ : ChatRequest => (Except.ok "A list is..." : Except String String))
      (submitRequest init_session_state "What is a list?") = Except.ok "A list is...") ∧
    ((submit init_session_state "What is a list?"
        (fun _ => (Except.ok "A list is..." : Except String String))).1.messages =
      init_session_state.messages ++
        [{ role := "user", content := "What is a list?" },
         { role := "assistant", content := "A list is..." }] ∧
    (submit init_session_state "What is a list?"
        (fun _ => (Except.ok "A list is..." : Except String String))).2 = none) :=
  ⟨by decide, rfl,
   C5_submit_service_success init_session_state "What is a list?"
     (fun _ => (Except.ok "A list is..." : Except String String)) "A list is..."
     (by decide) rfl⟩

/-- C6: no reachable store ever holds a message with role "system"; a
non-empty submission interacts with the service only through
`submitRequest` — the system entry prepended to the post-append history,
with model and temperature from the current settings — and the system
prompt it carries is recomputed from the current settings (witnessed by
the refreshed cache). -/
theorem C6_system_prompt_injection :
    (∀ ops : List Op, ∀ m ∈ (runOps init_session_state ops).messages,
      m.role ≠ "system") ∧
    (∀ (s : SessionState) (txt : String) (service : ChatRequest → Except String String),
      txt ≠ "" →
        submit s txt service = submit s txt (fun _ => service (submitRequest s txt))) ∧
    (∀ (s : SessionState) (txt : String) (service : ChatRequest → Except String String),
      txt ≠ "" →
        (submit s txt service).1.system_prompt_cache =
          build_system_prompt s.level s.focus s.style s.socratic) := by
  refine ⟨no_system_in_store, ?_, ?_⟩
  · intro s txt service ht
    rw [submit_spec s txt service ht,
      submit_spec s txt (fun _ => service (submitRequest s txt)) ht]
    rfl
  · intro s txt service ht
    have hc := congrArg (fun p => p.1.system_prompt_cache) (submit_spec s txt service ht)
    simpa using hc

/-- C7: the prompt composer is a pure function (two computations on equal
settings are equal), and for fixed level, focus and style the outputs for
the two socratic values share the same header and tail, differing only in
the tone clause — "Socratic and probing while supportive" when true,
"clear and direct with gentle guidance" when false. -/
theorem C7_build_system_prompt_socratic (level focus style : String) (socratic : Bool) :
    build_system_prompt level focus style socratic =
      build_system_prompt level focus style socratic ∧
    build_system_prompt level focus style true =
      promptHeader level focus style ++ "Socratic and probing while supportive" ++ promptTail ∧
    build_system_prompt level focus style false =
      promptHeader level focus style ++ "clear and direct with gentle guidance" ++ promptTail :=
  ⟨rfl, rfl, rfl⟩

/-- C8 (amended): provided every submission's service only succeeds with
non-empty reply text, every message in any reachable store has non-empty
content; suggestion clicks, user submissions and the fallback message
always populate content, but a successful assistant reply is stored
verbatim, so an empty service reply is stored as an empty assistant
message. -/
theorem C8_appended_content_nonempty (ops : List Op)
    (hq : ∀ o ∈ ops, serviceRepliesNonempty o) :
    ∀ m ∈ (runOps init_session_state ops).messages, m.content ≠ "" := by
  refine runOps_inv (fun s => ∀ m ∈ s.messages, m.content ≠ "") serviceRepliesNonempty
    applyOp_nonempty ops init_session_state hq ?_
  intro m hm
  simp [init_session_state] at hm

/-- C8 counterexample: a service that succeeds with the empty string makes
the orchestrator append an assistant message whose content is empty, so
not every appended message has non-empty content. -/
theorem C8_empty_reply_cex :
    { role := "assistant", content := "" } ∈
      (submit init_session_state "Hi" (fun _ => Except.ok "")).1.messages ∧
    ({ role := "assistant", content := "" } : Message).content = "" := by
  constructor
  · rw [submit_messages _ _ _ (by decide)]
    simp [replyOf]
  · rfl

/-- C8 witness: the amended theorem applied to a single submission whose
stub service replies "Hello!", at the stored user message. -/
theorem C8_appended_content_nonempty_inst :
    (∀ o ∈ [Op.submitOp "Hi" (fun _ => (Except.ok "Hello!" : Except String String))],
      serviceRepliesNonempty o) ∧
    ({ role := "user", content := "Hi" } : Message) ∈
      (runOps init_session_state
        [Op.submitOp "Hi" (fun _ => (Except.ok "Hello!" : Except String String))]).messages ∧
    ({ role := "user", content := "Hi" } : Message).content ≠ "" := by
  have hq : ∀ o ∈ [Op.submitOp "Hi" (fun _ => (Except.ok "Hello!" : Except String String))],
      serviceRepliesNonempty o := by
    intro o ho
    simp only [List.mem_singleton] at ho
    subst ho
    intro q r h
    simp only [Except.ok.injEq] at h
    subst h
    decide
  have hm : ({ role := "user", content := "Hi" } : Message) ∈
      (runOps init_session_state
        [Op.submitOp "Hi" (fun _ => (Except.ok "Hello!" : Except String String))]).messages := by
    show ({ role := "user", content := "Hi" } : Message) ∈
      (submit init_session_state "Hi"
        (fun _ => (Except.ok "Hello!" : Except String String))).1.messages
    rw [submit_messages _ _ _ (by decide)]
    simp
  exact ⟨hq, hm, C8_appended_content_nonempty _ hq _ hm⟩

/-- C9: `suggested_prompts` returns the same list — the six base prompts —
for every input string (strings outside the level enum fall into the else
branch), and none of the level-specific extras ever appears in the
output. -/
theorem C9_suggested_prompts_level_blind (l1 l2 : String) :
    suggested_prompts l1 = suggested_prompts l2 ∧
    suggested_prompts l1 = basePrompts ∧
    ((beginnerExtras ++ intermediateExtras ++ advancedExtras).all
      (fun p => !((suggested_prompts l1).contains p))) = true := by
  rw [suggested_prompts_eq_base l1, suggested_prompts_eq_base l2]
  exact ⟨rfl, rfl, by decide⟩

/-- C10: `update_settings` touches only the six settings fields — the
message log and the cached system prompt are returned unchanged for every
candidate. -/
theorem C10_update_settings_frame (s : SessionState) (model : String) (temperature : ℚ)
    (level focus style : String) (socratic : Bool) :
    (update_settings s model temperature level focus style socratic).1.messages =
      s.messages ∧
    (update_settings s model temperature level focus style socratic).1.system_prompt_cache =
      s.system_prompt_cache :=
  ⟨rfl, rfl⟩
